import Mathlib

/-!
Verification of the metric-dimension expansion and validation engine of
`mon-put-instance-data.py` (a CloudWatch monitoring script).

The Python source is shallowly embedded: Python dicts used as dimension
sets become association lists (`Dims`) read through a last-binding-wins
lookup (`dlookup`), matching Python dict construction from an item list
where a later item overwrites an earlier one with the same key; machine
integers and floats become `ℚ`; fallible operations return `Except`.
-/

/-- A dimension set: the items of a Python dict, in insertion order.
Only its value under `dlookup` (the dict it denotes) is meaningful. -/
abbrev Dims : Type := List (String × String)

/-- Lookup in the dict denoted by an item list: a later binding of the same
key overwrites an earlier one, as in Python `dict(items)`. -/
def dlookup : Dims → String → Option String
  | [], _ => Option.none
  | (k, v) :: rest, key =>
    match dlookup rest key with
    | some w => some w
    | Option.none => if k = key then some v else Option.none

/-- Two item lists denote the same Python dict. -/
def dictEq (d1 d2 : Dims) : Prop := ∀ key, dlookup d1 key = dlookup d2 key

/-- Python truthiness of an optional string: `None` and the empty string
are falsy (`if self.auto_scaling_group_name:` / `if mount:`). -/
def optTruthy : Option String → Bool
  | Option.none => false
  | some s => !s.isEmpty

/-- The value of `args.aggregated`: `None`, `'additional'` or `'only'`
(the argparse choices). `nonagg` is the falsy `None`. -/
inductive AggMode where
  | nonagg
  | additional
  | only
deriving DecidableEq, Repr

/-- The `Metrics` batch of the source: four parallel lists plus the
instance context captured at construction. -/
structure Metrics where
  names : List String
  units : List String
  values : List ℚ
  dimensions : List Dims
  instance_id : String
  instance_type : String
  image_id : String
  aggregated : AggMode
  auto_scaling_group_name : Option String
deriving DecidableEq

/-- `Metrics.__init__`: empty parallel lists, context stored. -/
def Metrics.init (instance_id instance_type image_id : String)
    (aggregated : AggMode) (auto_scaling_group : Option String) : Metrics :=
  { names := [], units := [], values := [], dimensions := [],
    instance_id := instance_id, instance_type := instance_type,
    image_id := image_id, aggregated := aggregated,
    auto_scaling_group_name := auto_scaling_group }

/-- The `common_dims` dict built at the top of `Metrics.add_metric`:
`MountPath` when `mount` is truthy, `Filesystem` when `file_system` is. -/
def commonDims (mount file_system : Option String) : Dims :=
  (match mount with
   | some s => if s.isEmpty then [] else [("MountPath", s)]
   | Option.none => []) ++
  (match file_system with
   | some s => if s.isEmpty then [] else [("Filesystem", s)]
   | Option.none => [])

/-- The `dims` list built in `Metrics.add_metric`: `{InstanceId}` unless
aggregation is `'only'`; `{AutoScalingGroupName}` when the stored group
name is truthy; `{InstanceType}`, `{ImageId}` and `{}` when aggregation
is truthy. -/
def Metrics.metricDims (m : Metrics) : List Dims :=
  (if m.aggregated ≠ AggMode.only then [[("InstanceId", m.instance_id)]] else []) ++
  (match m.auto_scaling_group_name with
   | some g => if g.isEmpty then [] else [[("AutoScalingGroupName", g)]]
   | Option.none => []) ++
  (if m.aggregated ≠ AggMode.nonagg then
    [[("InstanceType", m.instance_type)], [("ImageId", m.image_id)], ([] : Dims)]
   else [])

/-- `Metrics.__add_metric_dimensions`: for each dim, append the name, unit
and value, and the dict `dict(common_dims.items() + dim.items())` -- the
items of `common_dims` followed by those of `dim`. -/
def Metrics.add_metric_dimensions (m : Metrics) (name unit : String) (value : ℚ)
    (common_dims : Dims) (dims : List Dims) : Metrics :=
  dims.foldl (fun acc dim =>
    { acc with
      names := acc.names ++ [name]
      units := acc.units ++ [unit]
      values := acc.values ++ [value]
      dimensions := acc.dimensions ++ [common_dims ++ dim] }) m

/-- `Metrics.add_metric`. -/
def Metrics.add_metric (m : Metrics) (name unit : String) (value : ℚ)
    (mount file_system : Option String) : Metrics :=
  m.add_metric_dimensions name unit value (commonDims mount file_system) m.metricDims

theorem add_metric_dimensions_names (m : Metrics) (name unit : String) (value : ℚ)
    (c : Dims) (ds : List Dims) :
    (m.add_metric_dimensions name unit value c ds).names =
      m.names ++ List.replicate ds.length name := by
  induction ds generalizing m with
  | nil => simp [Metrics.add_metric_dimensions]
  | cons d ds ih =>
    simp [Metrics.add_metric_dimensions] at ih ⊢
    rw [ih]
    simp [List.replicate_succ]

theorem add_metric_dimensions_units (m : Metrics) (name unit : String) (value : ℚ)
    (c : Dims) (ds : List Dims) :
    (m.add_metric_dimensions name unit value c ds).units =
      m.units ++ List.replicate ds.length unit := by
  induction ds generalizing m with
  | nil => simp [Metrics.add_metric_dimensions]
  | cons d ds ih =>
    simp [Metrics.add_metric_dimensions] at ih ⊢
    rw [ih]
    simp [List.replicate_succ]

theorem add_metric_dimensions_values (m : Metrics) (name unit : String) (value : ℚ)
    (c : Dims) (ds : List Dims) :
    (m.add_metric_dimensions name unit value c ds).values =
      m.values ++ List.replicate ds.length value := by
  induction ds generalizing m with
  | nil => simp [Metrics.add_metric_dimensions]
  | cons d ds ih =>
    simp [Metrics.add_metric_dimensions] at ih ⊢
    rw [ih]
    simp [List.replicate_succ]

theorem add_metric_dimensions_dims (m : Metrics) (name unit : String) (value : ℚ)
    (c : Dims) (ds : List Dims) :
    (m.add_metric_dimensions name unit value c ds).dimensions =
      m.dimensions ++ ds.map (fun d => c ++ d) := by
  induction ds generalizing m with
  | nil => simp [Metrics.add_metric_dimensions]
  | cons d ds ih =>
    simp [Metrics.add_metric_dimensions] at ih ⊢
    rw [ih]
    simp

theorem dlookup_append (a b : Dims) (key : String) :
    dlookup (a ++ b) key =
      match dlookup b key with
      | some w => some w
      | Option.none => dlookup a key := by
  induction a with
  | nil =>
    cases h : dlookup b key <;> simp [dlookup, h]
  | cons p rest ih =>
    cases p with
    | mk k v =>
      show dlookup ((k, v) :: (rest ++ b)) key = _
      rw [dlookup, ih]
      cases h : dlookup b key <;> simp [dlookup]

theorem dlookup_single (k v key : String) :
    dlookup [(k, v)] key = if k = key then some v else Option.none := rfl

theorem dlookup_commonDims (mount file_system : Option String) (key : String)
    (h1 : key ≠ "MountPath") (h2 : key ≠ "Filesystem") :
    dlookup (commonDims mount file_system) key = Option.none := by
  unfold commonDims
  cases mount with
  | none =>
    cases file_system with
    | none => rfl
    | some s =>
      by_cases hs : s.isEmpty <;>
        simp [hs, dlookup_append, dlookup_single, h2, Ne.symm h2, dlookup]
  | some t =>
    cases file_system with
    | none =>
      by_cases ht : t.isEmpty <;>
        simp [ht, dlookup_append, dlookup_single, h1, Ne.symm h1, dlookup]
    | some s =>
      by_cases hs : s.isEmpty <;> by_cases ht : t.isEmpty <;>
        simp [hs, ht, dlookup_append, dlookup_single, h1, Ne.symm h1, h2, Ne.symm h2, dlookup]

theorem dlookup_common_push (mount file_system : Option String) (k v : String) :
    dlookup (commonDims mount file_system ++ [(k, v)]) k = some v := by
  rw [dlookup_append]
  simp [dlookup_single]

/-- Identifying dimension keys never collide with the common-dimension keys. -/
def idKey (k : String) : Prop :=
  k = "InstanceId" ∨ k = "AutoScalingGroupName" ∨ k = "InstanceType" ∨ k = "ImageId"

theorem dlookup_common_idKey (mount file_system : Option String) (k : String)
    (hk : idKey k) : dlookup (commonDims mount file_system) k = Option.none := by
  rcases hk with h | h | h | h <;> subst h <;>
    exact dlookup_commonDims _ _ _ (by decide) (by decide)

theorem not_dictEq_push_push (mount file_system : Option String) (k1 v1 k2 v2 : String)
    (hk1 : idKey k1) (hne : k1 ≠ k2) :
    ¬ dictEq (commonDims mount file_system ++ [(k1, v1)])
             (commonDims mount file_system ++ [(k2, v2)]) := by
  intro h
  have h1 := h k1
  rw [dlookup_common_push, dlookup_append, dlookup_single] at h1
  simp [Ne.symm hne, dlookup_common_idKey _ _ _ hk1] at h1

theorem not_dictEq_push_nil (mount file_system : Option String) (k1 v1 : String)
    (hk1 : idKey k1) :
    ¬ dictEq (commonDims mount file_system ++ [(k1, v1)])
             (commonDims mount file_system ++ ([] : Dims)) := by
  intro h
  have h1 := h k1
  rw [dlookup_common_push, List.append_nil, dlookup_common_idKey _ _ _ hk1] at h1
  exact Option.noConfusion h1

theorem not_dictEq_nil_push (mount file_system : Option String) (k1 v1 : String)
    (hk1 : idKey k1) :
    ¬ dictEq (commonDims mount file_system ++ ([] : Dims))
             (commonDims mount file_system ++ [(k1, v1)]) := by
  intro h
  have h1 := h k1
  rw [dlookup_common_push, List.append_nil, dlookup_common_idKey _ _ _ hk1] at h1
  exact Option.noConfusion h1

theorem dlookup_common_push_ne (mount file_system : Option String) (k v key : String)
    (hk : idKey key) (hne : k ≠ key) :
    dlookup (commonDims mount file_system ++ [(k, v)]) key = Option.none := by
  rw [dlookup_append, dlookup_single]
  simp [hne, dlookup_common_idKey _ _ _ hk]

/-- Any two of the five candidate dimension dicts of one `add_metric` call
denote different Python dicts: their identifying keys differ and never
collide with the common `MountPath` and `Filesystem` keys. -/
theorem pairwise_not_dictEq_master (mount file_system : Option String)
    (iid g it img : String) :
    List.Pairwise (fun a b => ¬ dictEq a b)
      [commonDims mount file_system ++ [("InstanceId", iid)],
       commonDims mount file_system ++ [("AutoScalingGroupName", g)],
       commonDims mount file_system ++ [("InstanceType", it)],
       commonDims mount file_system ++ [("ImageId", img)],
       commonDims mount file_system ++ ([] : Dims)] := by
  have hIId : idKey "InstanceId" := Or.inl rfl
  have hASG : idKey "AutoScalingGroupName" := Or.inr (Or.inl rfl)
  have hIT : idKey "InstanceType" := Or.inr (Or.inr (Or.inl rfl))
  have hImg : idKey "ImageId" := Or.inr (Or.inr (Or.inr rfl))
  refine List.Pairwise.cons ?_ (List.Pairwise.cons ?_ (List.Pairwise.cons ?_
    (List.Pairwise.cons ?_ (List.Pairwise.cons ?_ List.Pairwise.nil))))
  · intro d hd
    simp only [List.mem_cons, List.not_mem_nil, or_false] at hd
    rcases hd with rfl | rfl | rfl | rfl
    · exact not_dictEq_push_push _ _ _ _ _ _ hIId (by decide)
    · exact not_dictEq_push_push _ _ _ _ _ _ hIId (by decide)
    · exact not_dictEq_push_push _ _ _ _ _ _ hIId (by decide)
    · exact not_dictEq_push_nil _ _ _ _ hIId
  · intro d hd
    simp only [List.mem_cons, List.not_mem_nil, or_false] at hd
    rcases hd with rfl | rfl | rfl
    · exact not_dictEq_push_push _ _ _ _ _ _ hASG (by decide)
    · exact not_dictEq_push_push _ _ _ _ _ _ hASG (by decide)
    · exact not_dictEq_push_nil _ _ _ _ hASG
  · intro d hd
    simp only [List.mem_cons, List.not_mem_nil, or_false] at hd
    rcases hd with rfl | rfl
    · exact not_dictEq_push_push _ _ _ _ _ _ hIT (by decide)
    · exact not_dictEq_push_nil _ _ _ _ hIT
  · intro d hd
    simp only [List.mem_cons, List.not_mem_nil, or_false] at hd
    rcases hd with rfl
    exact not_dictEq_push_nil _ _ _ _ hImg
  · intro d hd
    exact absurd hd (List.not_mem_nil d)

/-- Claim C1: with aggregation mode `'additional'` and no (truthy)
auto-scaling group name, one `add_metric` call appends exactly 4 points
whose dimension dicts are, in order, `{InstanceId}`, `{InstanceType}`,
`{ImageId}` and `{}`, each merged with the common dimensions. -/
theorem add_metric_additional_no_asg (m : Metrics) (name unit : String) (value : ℚ)
    (mount file_system : Option String)
    (hagg : m.aggregated = AggMode.additional)
    (hasg : optTruthy m.auto_scaling_group_name = false) :
    (m.add_metric name unit value mount file_system).names
        = m.names ++ List.replicate 4 name ∧
    (m.add_metric name unit value mount file_system).units
        = m.units ++ List.replicate 4 unit ∧
    (m.add_metric name unit value mount file_system).values
        = m.values ++ List.replicate 4 value ∧
    (m.add_metric name unit value mount file_system).dimensions
        = m.dimensions ++
          [commonDims mount file_system ++ [("InstanceId", m.instance_id)],
           commonDims mount file_system ++ [("InstanceType", m.instance_type)],
           commonDims mount file_system ++ [("ImageId", m.image_id)],
           commonDims mount file_system] := by
  have hdims : m.metricDims =
      [[("InstanceId", m.instance_id)], [("InstanceType", m.instance_type)],
       [("ImageId", m.image_id)], []] := by
    unfold Metrics.metricDims
    rw [hagg]
    cases h : m.auto_scaling_group_name with
    | none => simp
    | some g =>
      rw [h] at hasg
      simp only [optTruthy, Bool.not_eq_false'] at hasg
      simp [hasg]
  unfold Metrics.add_metric
  rw [hdims]
  refine ⟨?_, ?_, ?_, ?_⟩
  · rw [add_metric_dimensions_names]
    rfl
  · rw [add_metric_dimensions_units]
    rfl
  · rw [add_metric_dimensions_values]
    rfl
  · rw [add_metric_dimensions_dims]
    simp

/-- Claim C2: with aggregation mode `'only'` and a truthy auto-scaling
group name, one `add_metric` call appends exactly 4 points with dimension
dicts `{AutoScalingGroupName}`, `{InstanceType}`, `{ImageId}` and `{}`
(each merged with the common dimensions), and none of the appended dicts
contains the key `InstanceId`. -/
theorem add_metric_only_with_asg (m : Metrics) (name unit : String) (value : ℚ)
    (mount file_system : Option String) (g : String)
    (hagg : m.aggregated = AggMode.only)
    (hg : m.auto_scaling_group_name = some g)
    (hge : g.isEmpty = false) :
    (m.add_metric name unit value mount file_system).names
        = m.names ++ List.replicate 4 name ∧
    (m.add_metric name unit value mount file_system).units
        = m.units ++ List.replicate 4 unit ∧
    (m.add_metric name unit value mount file_system).values
        = m.values ++ List.replicate 4 value ∧
    (m.add_metric name unit value mount file_system).dimensions
        = m.dimensions ++
          [commonDims mount file_system ++ [("AutoScalingGroupName", g)],
           commonDims mount file_system ++ [("InstanceType", m.instance_type)],
           commonDims mount file_system ++ [("ImageId", m.image_id)],
           commonDims mount file_system] ∧
    (∀ d ∈ [commonDims mount file_system ++ [("AutoScalingGroupName", g)],
            commonDims mount file_system ++ [("InstanceType", m.instance_type)],
            commonDims mount file_system ++ [("ImageId", m.image_id)],
            commonDims mount file_system],
      dlookup d "InstanceId" = Option.none) := by
  have hIId : idKey "InstanceId" := Or.inl rfl
  have hdims : m.metricDims =
      [[("AutoScalingGroupName", g)], [("InstanceType", m.instance_type)],
       [("ImageId", m.image_id)], []] := by
    unfold Metrics.metricDims
    rw [hagg, hg]
    simp [hge]
  unfold Metrics.add_metric
  rw [hdims]
  refine ⟨?_, ?_, ?_, ?_, ?_⟩
  · rw [add_metric_dimensions_names]
    rfl
  · rw [add_metric_dimensions_units]
    rfl
  · rw [add_metric_dimensions_values]
    rfl
  · rw [add_metric_dimensions_dims]
    simp
  · intro d hd
    simp only [List.mem_cons, List.not_mem_nil, or_false] at hd
    rcases hd with rfl | rfl | rfl | rfl
    · exact dlookup_common_push_ne _ _ _ _ _ hIId (by decide)
    · exact dlookup_common_push_ne _ _ _ _ _ hIId (by decide)
    · exact dlookup_common_push_ne _ _ _ _ _ hIId (by decide)
    · exact dlookup_common_idKey _ _ _ hIId

/-- Claim C3: with falsy aggregation mode (`None`) and no truthy
auto-scaling group name, one `add_metric` call appends exactly 1 point,
whose dimension dict is `{InstanceId}` merged with the common dimensions. -/
theorem add_metric_none_no_asg (m : Metrics) (name unit : String) (value : ℚ)
    (mount file_system : Option String)
    (hagg : m.aggregated = AggMode.nonagg)
    (hasg : optTruthy m.auto_scaling_group_name = false) :
    (m.add_metric name unit value mount file_system).names
        = m.names ++ [name] ∧
    (m.add_metric name unit value mount file_system).units
        = m.units ++ [unit] ∧
    (m.add_metric name unit value mount file_system).values
        = m.values ++ [value] ∧
    (m.add_metric name unit value mount file_system).dimensions
        = m.dimensions ++
          [commonDims mount file_system ++ [("InstanceId", m.instance_id)]] := by
  have hdims : m.metricDims = [[("InstanceId", m.instance_id)]] := by
    unfold Metrics.metricDims
    rw [hagg]
    cases h : m.auto_scaling_group_name with
    | none => simp
    | some g =>
      rw [h] at hasg
      simp only [optTruthy, Bool.not_eq_false'] at hasg
      simp [hasg]
  unfold Metrics.add_metric
  rw [hdims]
  refine ⟨?_, ?_, ?_, ?_⟩
  · rw [add_metric_dimensions_names]
    rfl
  · rw [add_metric_dimensions_units]
    rfl
  · rw [add_metric_dimensions_values]
    rfl
  · rw [add_metric_dimensions_dims]
    rfl

/-- Claim C4: for every aggregation mode, every context and every
common-dimension choice, the dimension dicts appended by one `add_metric`
call are pairwise distinct as Python dicts. -/
theorem add_metric_dims_pairwise_distinct (m : Metrics) (name unit : String)
    (value : ℚ) (mount file_system : Option String) :
    (m.add_metric name unit value mount file_system).dimensions
        = m.dimensions ++
          m.metricDims.map (fun d => commonDims mount file_system ++ d) ∧
    List.Pairwise (fun a b => ¬ dictEq a b)
      (m.metricDims.map (fun d => commonDims mount file_system ++ d)) := by
  constructor
  · exact add_metric_dimensions_dims m name unit value _ _
  · have master := pairwise_not_dictEq_master mount file_system
      m.instance_id ((m.auto_scaling_group_name).getD "") m.instance_type m.image_id
    rcases hasg : m.auto_scaling_group_name with _ | g
    · rw [hasg] at master
      cases hagg : m.aggregated
      · have hdims : m.metricDims = [[("InstanceId", m.instance_id)]] := by
          unfold Metrics.metricDims
          rw [hagg, hasg]
          simp
        rw [hdims]
        simp only [List.map_cons, List.map_nil]
        exact List.Pairwise.sublist ((List.nil_sublist _).cons₂ _) master
      · have hdims : m.metricDims =
            [[("InstanceId", m.instance_id)], [("InstanceType", m.instance_type)],
             [("ImageId", m.image_id)], []] := by
          unfold Metrics.metricDims
          rw [hagg, hasg]
          simp
        rw [hdims]
        simp only [List.map_cons, List.map_nil]
        exact List.Pairwise.sublist (((List.Sublist.refl _).cons _).cons₂ _) master
      · have hdims : m.metricDims =
            [[("InstanceType", m.instance_type)], [("ImageId", m.image_id)], []] := by
          unfold Metrics.metricDims
          rw [hagg, hasg]
          simp
        rw [hdims]
        simp only [List.map_cons, List.map_nil]
        exact List.Pairwise.sublist (((List.Sublist.refl _).cons _).cons _) master
    · by_cases hg : g.isEmpty
      · have masterq := pairwise_not_dictEq_master mount file_system
          m.instance_id "" m.instance_type m.image_id
        cases hagg : m.aggregated
        · have hdims : m.metricDims = [[("InstanceId", m.instance_id)]] := by
            unfold Metrics.metricDims
            rw [hagg, hasg]
            simp [hg]
          rw [hdims]
          simp only [List.map_cons, List.map_nil]
          exact List.Pairwise.sublist ((List.nil_sublist _).cons₂ _) masterq
        · have hdims : m.metricDims =
              [[("InstanceId", m.instance_id)], [("InstanceType", m.instance_type)],
               [("ImageId", m.image_id)], []] := by
            unfold Metrics.metricDims
            rw [hagg, hasg]
            simp [hg]
          rw [hdims]
          simp only [List.map_cons, List.map_nil]
          exact List.Pairwise.sublist (((List.Sublist.refl _).cons _).cons₂ _) masterq
        · have hdims : m.metricDims =
              [[("InstanceType", m.instance_type)], [("ImageId", m.image_id)], []] := by
            unfold Metrics.metricDims
            rw [hagg, hasg]
            simp [hg]
          rw [hdims]
          simp only [List.map_cons, List.map_nil]
          exact List.Pairwise.sublist (((List.Sublist.refl _).cons _).cons _) masterq
      · rw [hasg] at master
        simp only [Option.getD_some] at master
        cases hagg : m.aggregated
        · have hdims : m.metricDims =
              [[("InstanceId", m.instance_id)], [("AutoScalingGroupName", g)]] := by
            unfold Metrics.metricDims
            rw [hagg, hasg]
            simp [hg]
          rw [hdims]
          simp only [List.map_cons, List.map_nil]
          exact List.Pairwise.sublist
            (((List.nil_sublist _).cons₂ _).cons₂ _) master
        · have hdims : m.metricDims =
              [[("InstanceId", m.instance_id)], [("AutoScalingGroupName", g)],
               [("InstanceType", m.instance_type)], [("ImageId", m.image_id)], []] := by
            unfold Metrics.metricDims
            rw [hagg, hasg]
            simp [hg]
          rw [hdims]
          simp only [List.map_cons, List.map_nil]
          exact List.Pairwise.sublist (List.Sublist.refl _) master
        · have hdims : m.metricDims =
              [[("AutoScalingGroupName", g)], [("InstanceType", m.instance_type)],
               [("ImageId", m.image_id)], []] := by
            unfold Metrics.metricDims
            rw [hagg, hasg]
            simp [hg]
          rw [hdims]
          simp only [List.map_cons, List.map_nil]
          exact List.Pairwise.sublist ((List.Sublist.refl _).cons _) master

/-- Claim C10: the four parallel lists of the batch have equal length
after every `add_metric` call (given they were equal before), and all
points appended by one call carry the same name, unit and numeric value. -/
theorem add_metric_parallel_lists (m : Metrics) (name unit : String) (value : ℚ)
    (mount file_system : Option String)
    (h1 : m.names.length = m.units.length)
    (h2 : m.names.length = m.values.length)
    (h3 : m.names.length = m.dimensions.length) :
    (m.add_metric name unit value mount file_system).names.length
        = (m.add_metric name unit value mount file_system).units.length ∧
    (m.add_metric name unit value mount file_system).names.length
        = (m.add_metric name unit value mount file_system).values.length ∧
    (m.add_metric name unit value mount file_system).names.length
        = (m.add_metric name unit value mount file_system).dimensions.length ∧
    (m.add_metric name unit value mount file_system).names
        = m.names ++ List.replicate m.metricDims.length name ∧
    (m.add_metric name unit value mount file_system).units
        = m.units ++ List.replicate m.metricDims.length unit ∧
    (m.add_metric name unit value mount file_system).values
        = m.values ++ List.replicate m.metricDims.length value := by
  unfold Metrics.add_metric
  rw [add_metric_dimensions_names, add_metric_dimensions_units,
    add_metric_dimensions_values, add_metric_dimensions_dims]
  refine ⟨?_, ?_, ?_, rfl, rfl, rfl⟩ <;>
    simp [← h1, ← h2, ← h3]

/-- Witness for claim C1 at a concrete batch. -/
theorem add_metric_additional_no_asg_witness :
    ((Metrics.init "i-0" "t0" "a0" AggMode.additional Option.none).add_metric
        "M" "Percent" 5 Option.none Option.none).dimensions
      = [[("InstanceId", "i-0")], [("InstanceType", "t0")], [("ImageId", "a0")], []] := by
  have h := add_metric_additional_no_asg
    (Metrics.init "i-0" "t0" "a0" AggMode.additional Option.none)
    "M" "Percent" 5 Option.none Option.none rfl rfl
  simpa [Metrics.init, commonDims] using h.2.2.2

/-- Witness for claim C2 at a concrete batch. -/
theorem add_metric_only_with_asg_witness :
    ((Metrics.init "i-0" "t0" "a0" AggMode.only (some "grp")).add_metric
        "M" "Percent" 5 Option.none Option.none).dimensions
      = [[("AutoScalingGroupName", "grp")], [("InstanceType", "t0")],
         [("ImageId", "a0")], []] := by
  have h := add_metric_only_with_asg
    (Metrics.init "i-0" "t0" "a0" AggMode.only (some "grp"))
    "M" "Percent" 5 Option.none Option.none "grp" rfl rfl rfl
  simpa [Metrics.init, commonDims] using h.2.2.2.1

/-- Witness for claim C3 at a concrete batch. -/
theorem add_metric_none_no_asg_witness :
    ((Metrics.init "i-0" "t0" "a0" AggMode.nonagg Option.none).add_metric
        "M" "Percent" 5 Option.none Option.none).dimensions
      = [[("InstanceId", "i-0")]] := by
  have h := add_metric_none_no_asg
    (Metrics.init "i-0" "t0" "a0" AggMode.nonagg Option.none)
    "M" "Percent" 5 Option.none Option.none rfl rfl
  simpa [Metrics.init, commonDims] using h.2.2.2

/-- Witness for claim C10 at a concrete batch. -/
theorem add_metric_parallel_lists_witness :
    ((Metrics.init "i-0" "t0" "a0" AggMode.additional Option.none).add_metric
        "M" "Percent" 5 Option.none Option.none).names.length
      = ((Metrics.init "i-0" "t0" "a0" AggMode.additional Option.none).add_metric
        "M" "Percent" 5 Option.none Option.none).dimensions.length := by
  exact (add_metric_parallel_lists
    (Metrics.init "i-0" "t0" "a0" AggMode.additional Option.none)
    "M" "Percent" 5 Option.none Option.none rfl rfl rfl).2.2.1

/-- `SIZE_UNITS_CFG`: unit key to display name and byte divisor. -/
def SIZE_UNITS_CFG : List (String × String × ℚ) :=
  [("bytes", "Bytes", 1), ("kilobytes", "Kilobytes", 1024),
   ("megabytes", "Megabytes", 1048576), ("gigabytes", "Gigabytes", 1073741824)]

/-- `SIZE_UNITS_CFG[u]['name']`. -/
def sizeUnitName (u : String) : String :=
  ((SIZE_UNITS_CFG.find? (fun p => p.1 == u)).map (fun p => p.2.1)).getD ""

/-- `float(SIZE_UNITS_CFG[u]['div'])`. -/
def sizeUnitDiv (u : String) : ℚ :=
  ((SIZE_UNITS_CFG.find? (fun p => p.1 == u)).map (fun p => p.2.2)).getD 1

/-- `MemData`: the flag plus the raw byte readings. `__gather_mem_info`
parses `/proc/meminfo` (an external sample source); its numeric results
are injected as the fields here. -/
structure MemData where
  mem_used_incl_cache_buff : Bool
  mem_total : ℚ
  mem_free : ℚ
  mem_cached : ℚ
  mem_buffers : ℚ
  swap_total : ℚ
  swap_free : ℚ
deriving DecidableEq

/-- `MemData.mem_avail`: free memory, plus cached and buffers unless they
count as used. -/
def MemData.mem_avail (m : MemData) : ℚ :=
  if !m.mem_used_incl_cache_buff then m.mem_free + m.mem_cached + m.mem_buffers
  else m.mem_free

/-- `MemData.mem_used`. -/
def MemData.mem_used (m : MemData) : ℚ := m.mem_total - m.mem_avail

/-- `MemData.mem_util`. -/
def MemData.mem_util (m : MemData) : ℚ := 100 * m.mem_used / m.mem_total

/-- `MemData.swap_used`. -/
def MemData.swap_used (m : MemData) : ℚ := m.swap_total - m.swap_free

/-- `MemData.swap_util`: returns 0 when there is no swap at all. -/
def MemData.swap_util (m : MemData) : ℚ :=
  if m.swap_total = 0 then 0 else 100 * m.swap_used / m.swap_total

/-- Division that models Python float division: a zero divisor raises
`ZeroDivisionError`, modelled as `Option.none`. -/
def checkedDiv (a b : ℚ) : Option ℚ := if b = 0 then Option.none else some (a / b)

/-- `MemData.swap_util` with its division checked against a zero divisor. -/
def MemData.swap_util_chk (m : MemData) : Option ℚ :=
  if m.swap_total = 0 then some 0 else checkedDiv (100 * m.swap_used) m.swap_total

/-- `Disk`: one row of `df` output, with the utilization computed in
`Disk.__init__`. -/
structure Disk where
  mount : String
  file_system : String
  used : ℚ
  avail : ℚ
  util : ℚ
deriving DecidableEq

/-- `Disk.__init__`: `util = 100.0 * used / total if total > 0 else 0`. -/
def Disk.init (mount file_system : String) (total used avail : ℚ) : Disk :=
  { mount := mount, file_system := file_system, used := used, avail := avail,
    util := if total > 0 then 100 * used / total else 0 }

/-- The `util` computation of `Disk.__init__` with its division checked. -/
def diskUtil_chk (total used : ℚ) : Option ℚ :=
  if total > 0 then checkedDiv (100 * used) total else some 0

/-- The argparse namespace fields that the validator and the memory
metric collection read. `disk_path` is `None` when the `--disk-path`
append option never fired, otherwise the accumulated list. -/
structure Args where
  mem_util : Bool
  mem_used : Bool
  mem_avail : Bool
  swap_util : Bool
  swap_used : Bool
  mem_used_incl_cache_buff : Bool
  memory_units : String
  disk_path : Option (List String)
  disk_space_util : Bool
  disk_space_used : Bool
  disk_space_avail : Bool
  disk_space_units : String
deriving DecidableEq

/-- `add_memory_metrics`, with the `MemData` readings injected. -/
def add_memory_metrics (args : Args) (mem : MemData) (metrics : Metrics) : Metrics :=
  let mem_unit_name := sizeUnitName args.memory_units
  let mem_unit_div := sizeUnitDiv args.memory_units
  let metrics1 := if args.mem_util then
      metrics.add_metric "MemoryUtilization" "Percent" mem.mem_util
        Option.none Option.none
    else metrics
  let metrics2 := if args.mem_used then
      metrics1.add_metric "MemoryUsed" mem_unit_name (mem.mem_used / mem_unit_div)
        Option.none Option.none
    else metrics1
  let metrics3 := if args.mem_avail then
      metrics2.add_metric "MemoryAvailable" mem_unit_name (mem.mem_avail / mem_unit_div)
        Option.none Option.none
    else metrics2
  let metrics4 := if args.swap_util then
      metrics3.add_metric "SwapUtilization" "Percent" mem.swap_util
        Option.none Option.none
    else metrics3
  let metrics5 := if args.swap_used then
      metrics4.add_metric "SwapUsed" mem_unit_name (mem.swap_used / mem_unit_div)
        Option.none Option.none
    else metrics4
  metrics5

/-- Claim C8: with `mem_used_incl_cache_buff=false` and raw readings
total=8e9, free=5e8, cached=1e9, buffers=2e8 bytes, available memory is
1.7e9 bytes, used memory is 6.3e9 bytes, and the `MemoryUsed` value
emitted under `megabytes` is 6.3e9 divided by the exact table divisor
1048576, not by 1000000. -/
theorem memory_used_megabytes_example :
    (MemData.mk false 8000000000 500000000 1000000000 200000000 0 0).mem_avail
        = 1700000000 ∧
    (MemData.mk false 8000000000 500000000 1000000000 200000000 0 0).mem_used
        = 6300000000 ∧
    (add_memory_metrics
        (Args.mk false true false false false false "megabytes" Option.none
          false false false "gigabytes")
        (MemData.mk false 8000000000 500000000 1000000000 200000000 0 0)
        (Metrics.init "i-0" "t0" "a0" AggMode.nonagg Option.none)).names
        = ["MemoryUsed"] ∧
    (add_memory_metrics
        (Args.mk false true false false false false "megabytes" Option.none
          false false false "gigabytes")
        (MemData.mk false 8000000000 500000000 1000000000 200000000 0 0)
        (Metrics.init "i-0" "t0" "a0" AggMode.nonagg Option.none)).units
        = ["Megabytes"] ∧
    (add_memory_metrics
        (Args.mk false true false false false false "megabytes" Option.none
          false false false "gigabytes")
        (MemData.mk false 8000000000 500000000 1000000000 200000000 0 0)
        (Metrics.init "i-0" "t0" "a0" AggMode.nonagg Option.none)).values
        = [(6300000000 : ℚ) / 1048576] ∧
    ((6300000000 : ℚ) / 1048576) ≠ (6300000000 : ℚ) / 1000000 := by
  refine ⟨by norm_num [MemData.mem_avail], by norm_num [MemData.mem_used, MemData.mem_avail],
    by decide, by decide, ?_, by norm_num⟩
  have hdiv : sizeUnitDiv "megabytes" = 1048576 := rfl
  norm_num [add_memory_metrics, Metrics.add_metric, Metrics.add_metric_dimensions,
    Metrics.metricDims, Metrics.init, commonDims, hdiv,
    MemData.mem_used, MemData.mem_avail, List.foldl]

/-- Claim C9: `swap_util` returns 0 when `swap_total` is 0 and its checked
form never raises a division-by-zero; the `util` field of `Disk.__init__`
is 0 when `total` is 0 and its checked form never raises either. -/
theorem utilization_division_guards (m : MemData) (mount file_system : String)
    (total used avail : ℚ)
    (hst : 0 ≤ m.swap_total) (ht : 0 ≤ total) (hu : 0 ≤ used) :
    m.swap_util_chk = some m.swap_util ∧
    (m.swap_total = 0 → m.swap_util = 0) ∧
    diskUtil_chk total used
        = some (Disk.init mount file_system total used avail).util ∧
    (total = 0 → (Disk.init mount file_system total used avail).util = 0) := by
  refine ⟨?_, ?_, ?_, ?_⟩
  · unfold MemData.swap_util_chk MemData.swap_util checkedDiv
    by_cases h : m.swap_total = 0 <;> simp [h]
  · intro h
    simp [MemData.swap_util, h]
  · unfold diskUtil_chk Disk.init checkedDiv
    by_cases h : total > 0
    · have hne : total ≠ 0 := ne_of_gt h
      simp [h, hne]
    · simp [h]
  · intro h
    simp [Disk.init, h]

/-- Witness for claim C9 at concrete readings. -/
theorem utilization_division_guards_witness :
    (MemData.mk false 8000000000 500000000 1000000000 200000000 0 0).swap_util_chk
        = some (MemData.mk false 8000000000 500000000 1000000000 200000000 0 0).swap_util ∧
    diskUtil_chk 0 0 = some (Disk.init "/" "/dev/xvda1" 0 0 0).util := by
  have h := utilization_division_guards
    (MemData.mk false 8000000000 500000000 1000000000 200000000 0 0)
    "/" "/dev/xvda1" 0 0 0 (by norm_num) (by norm_num) (by norm_num)
  exact ⟨h.1, h.2.2.1⟩

/-- `sub` occurs at the start of `l` (character lists). -/
def listHasPre : List Char → List Char → Bool
  | [], _ => true
  | _ :: _, [] => false
  | a :: s, b :: l => a == b && listHasPre s l

/-- `sub` occurs somewhere in `l` (character lists). -/
def listHasSub (sub : List Char) : List Char → Bool
  | [] => listHasPre sub []
  | b :: l => listHasPre sub (b :: l) || listHasSub sub l

/-- The message `msg` mentions `sub`, i.e. contains it as a substring. -/
def mentions (msg sub : String) : Bool := listHasSub sub.data msg.data

/-- `report_mem_data` as computed at the top of `validate_args`. -/
def reportMemData (args : Args) : Bool :=
  args.mem_util || args.mem_used || args.mem_avail ||
    args.swap_util || args.swap_used

/-- `validate_args`: checks the request and returns
`(report_disk_data, report_mem_data)`, or fails with the `ValueError`
message. `os.path.isdir` is the external directory check, injected as
`isdir`. The path loop raises at the first inaccessible path. -/
def validate_args (isdir : String → Bool) (args : Args) : Except String (Bool × Bool) :=
  let report_mem_data := reportMemData args
  let report_disk_data := args.disk_path.isSome
  let diskCheck : Except String Unit :=
    match args.disk_path with
    | some paths =>
      if !args.disk_space_util && !args.disk_space_used && !args.disk_space_avail then
        Except.error "Disk path is provided but metrics to report disk space are not specified."
      else
        match paths.find? (fun path => !isdir path) with
        | some path =>
          Except.error ("Disk file path " ++ path ++ " does not exist or cannot be accessed.")
        | Option.none => Except.ok ()
    | Option.none =>
      if args.disk_space_util || args.disk_space_used || args.disk_space_avail then
        Except.error "Metrics to report disk space are provided but disk path is not specified."
      else Except.ok ()
  match diskCheck with
  | Except.error e => Except.error e
  | Except.ok _ =>
    if !report_mem_data && !report_disk_data then
      Except.error "No metrics specified for collection and submission to CloudWatch."
    else Except.ok (report_disk_data, report_mem_data)

/-- Any of the three disk-space metric flags. -/
def anyDiskFlag (args : Args) : Bool :=
  args.disk_space_util || args.disk_space_used || args.disk_space_avail

/-- Claim C6: `validate_args` fails exactly in the four listed cases, with
the listed messages, and succeeds otherwise with the pair of flags. The
embedding is a pure function of the request, so no mutation occurs. -/
theorem validate_args_spec (isdir : String → Bool) (args : Args) :
    (∀ ps, args.disk_path = some ps → anyDiskFlag args = false →
      validate_args isdir args =
        Except.error "Disk path is provided but metrics to report disk space are not specified." ∧
      mentions "Disk path is provided but metrics to report disk space are not specified."
        "disk space" = true) ∧
    (args.disk_path = Option.none → anyDiskFlag args = true →
      validate_args isdir args =
        Except.error "Metrics to report disk space are provided but disk path is not specified." ∧
      mentions "Metrics to report disk space are provided but disk path is not specified."
        "disk path" = true) ∧
    (∀ ps p, args.disk_path = some ps → anyDiskFlag args = true →
      ps.find? (fun path => !isdir path) = some p →
      validate_args isdir args =
        Except.error ("Disk file path " ++ p ++ " does not exist or cannot be accessed.")) ∧
    (args.disk_path = Option.none → anyDiskFlag args = false →
      reportMemData args = false →
      validate_args isdir args =
        Except.error "No metrics specified for collection and submission to CloudWatch." ∧
      mentions "No metrics specified for collection and submission to CloudWatch."
        "No metrics" = true) ∧
    (∀ ps, args.disk_path = some ps → anyDiskFlag args = true →
      ps.find? (fun path => !isdir path) = Option.none →
      validate_args isdir args = Except.ok (true, reportMemData args)) ∧
    (args.disk_path = Option.none → anyDiskFlag args = false →
      reportMemData args = true →
      validate_args isdir args = Except.ok (false, true)) := by
  have split_false : anyDiskFlag args = false →
      args.disk_space_util = false ∧ args.disk_space_used = false ∧
        args.disk_space_avail = false := by
    intro h
    simp only [anyDiskFlag, Bool.or_eq_false_iff] at h
    exact ⟨h.1.1, h.1.2, h.2⟩
  have hflagT : anyDiskFlag args = true →
      (!args.disk_space_util && !args.disk_space_used && !args.disk_space_avail)
        = false := by
    intro h
    simp only [anyDiskFlag, Bool.or_eq_true] at h
    rcases h with (h | h) | h <;> simp [h]
  refine ⟨?_, ?_, ?_, ?_, ?_, ?_⟩
  · intro ps hps hfl
    obtain ⟨h1, h2, h3⟩ := split_false hfl
    refine ⟨?_, by decide⟩
    unfold validate_args
    rw [hps]
    simp [h1, h2, h3]
  · intro hps hfl
    refine ⟨?_, by decide⟩
    unfold validate_args
    rw [hps]
    simp only [anyDiskFlag, Bool.or_eq_true] at hfl
    rcases hfl with (h | h) | h <;> simp [h]
  · intro ps p hps hfl hfind
    unfold validate_args
    rw [hps]
    simp [hflagT hfl, hfind]
  · intro hps hfl hmem
    obtain ⟨h1, h2, h3⟩ := split_false hfl
    refine ⟨?_, by decide⟩
    unfold validate_args
    rw [hps]
    simp [h1, h2, h3, hmem]
  · intro ps hps hfl hfind
    unfold validate_args
    rw [hps]
    simp [hflagT hfl, hfind]
  · intro hps hfl hmem
    obtain ⟨h1, h2, h3⟩ := split_false hfl
    unfold validate_args
    rw [hps]
    simp [h1, h2, h3, hmem]

/-- Witness for claim C6: a request with a disk path but no disk-space
metric flag fails with the disk-space message. -/
theorem validate_args_spec_witness :
    validate_args (fun _ => true)
        (Args.mk false false false false false false "megabytes"
          (some ["/data"]) false false false "gigabytes") =
      Except.error "Disk path is provided but metrics to report disk space are not specified." := by
  exact ((validate_args_spec (fun _ => true)
    (Args.mk false false false false false false "megabytes"
      (some ["/data"]) false false false "gigabytes")).1 ["/data"] rfl rfl).1

/-- A wrapped producer: `FileCache.__init__` stores the function. Its
`__name__` and the `str(args) + ':' + str(kwargs)` rendering of the call
arguments are modelled by `fncName` and `encodeArgs`. -/
structure FileCache (α β : Type) where
  fncName : String
  encodeArgs : α → String
  fnc : α → β

/-- The signature of one call:
`str(self.fnc.__name__) + ':' + str(args) + ':' + str(kwargs)`. The md5
hex digest only relocates the signature into a filename, so entries are
keyed by the signature itself. -/
def FileCache.sigOf {α β : Type} (fc : FileCache α β) (args : α) : String :=
  fc.fncName ++ ":" ++ fc.encodeArgs args

/-- The cache directory: one stored entry per filename. The first
component of an entry is the pickled blob: `some v` unpickles to `v`,
`Option.none` is a corrupt blob on which `pickle.load` raises. The `Nat`
is the file mtime. -/
abbrev CacheDir (β : Type) := List (String × Option β × Nat)

/-- `os.path.exists` plus reading the entry. -/
def slookup {β : Type} : CacheDir β → String → Option (Option β × Nat)
  | [], _ => Option.none
  | (k, e) :: rest, key => if k = key then some e else slookup rest key

/-- Writing an entry: overwrite the file of that name, or create it. -/
def supdate {β : Type} : CacheDir β → String → Option β → Nat → CacheDir β
  | [], key, b, t => [(key, b, t)]
  | (k, e) :: rest, key, b, t =>
    if k = key then (key, b, t) :: rest else (k, e) :: supdate rest key b t

/-- `FileCache.__call__` at time `now`: when the entry exists and
`mtime + TTL > now`, unpickle and return it (a raised `UnpicklingError`
propagates -- there is no handler around `pickle.load`); otherwise invoke
the producer, persist the value with mtime `now`, and return it. The
`Bool` in the result records whether the producer ran. -/
def FileCache.call {α β : Type} (fc : FileCache α β) (ttl : Nat)
    (st : CacheDir β) (now : Nat) (args : α) :
    Except String (β × CacheDir β × Bool) :=
  match slookup st (fc.sigOf args) with
  | some (blob, mtime) =>
    if mtime + ttl > now then
      match blob with
      | some v => Except.ok (v, st, false)
      | Option.none => Except.error "UnpicklingError"
    else
      Except.ok (fc.fnc args, supdate st (fc.sigOf args) (some (fc.fnc args)) now, true)
  | Option.none =>
    Except.ok (fc.fnc args, supdate st (fc.sigOf args) (some (fc.fnc args)) now, true)

theorem slookup_supdate_self {β : Type} (st : CacheDir β) (key : String)
    (b : Option β) (t : Nat) :
    slookup (supdate st key b t) key = some (b, t) := by
  induction st with
  | nil => simp [supdate, slookup]
  | cons e rest ih =>
    rcases e with ⟨k, v⟩
    by_cases h : k = key <;> simp [supdate, slookup, h, ih]

theorem slookup_supdate_ne {β : Type} (st : CacheDir β) (key key' : String)
    (b : Option β) (t : Nat) (h : key ≠ key') :
    slookup (supdate st key b t) key' = slookup st key' := by
  induction st with
  | nil => simp [supdate, slookup, h]
  | cons e rest ih =>
    rcases e with ⟨k, v⟩
    by_cases hk : k = key
    · subst hk
      simp [supdate, slookup, h, ih]
    · simp [supdate, slookup, hk, ih]

/-- Claim C5: a second call with the same arguments while the stored entry
is within the TTL does not invoke the producer and returns the stored
value; a call after the TTL has elapsed invokes the producer again; and a
call whose signature differs from every stored one computes its own value,
untouched by the other entries. -/
theorem file_cache_ttl (α β : Type) (fc : FileCache α β) (ttl : Nat) :
    (∀ (st : CacheDir β) (t1 t2 : Nat) (a : α),
      slookup st (fc.sigOf a) = Option.none → t2 < t1 + ttl →
      fc.call ttl st t1 a =
        Except.ok (fc.fnc a, supdate st (fc.sigOf a) (some (fc.fnc a)) t1, true) ∧
      fc.call ttl (supdate st (fc.sigOf a) (some (fc.fnc a)) t1) t2 a =
        Except.ok (fc.fnc a, supdate st (fc.sigOf a) (some (fc.fnc a)) t1, false)) ∧
    (∀ (st : CacheDir β) (now t0 : Nat) (a : α) (blob : Option β),
      slookup st (fc.sigOf a) = some (blob, t0) → t0 + ttl ≤ now →
      fc.call ttl st now a =
        Except.ok (fc.fnc a, supdate st (fc.sigOf a) (some (fc.fnc a)) now, true)) ∧
    (∀ (st : CacheDir β) (now t0 : Nat) (a1 a2 : α) (b : Option β),
      fc.sigOf a1 ≠ fc.sigOf a2 → slookup st (fc.sigOf a2) = Option.none →
      fc.call ttl (supdate st (fc.sigOf a1) b t0) now a2 =
        Except.ok (fc.fnc a2,
          supdate (supdate st (fc.sigOf a1) b t0) (fc.sigOf a2)
            (some (fc.fnc a2)) now,
          true)) := by
  refine ⟨?_, ?_, ?_⟩
  · intro st t1 t2 a hmiss hfresh
    constructor
    · unfold FileCache.call
      rw [hmiss]
    · unfold FileCache.call
      rw [slookup_supdate_self]
      simp [hfresh]
  · intro st now t0 a blob hhit hstale
    unfold FileCache.call
    rw [hhit]
    simp [show ¬(now < t0 + ttl) from not_lt.mpr hstale]
  · intro st now t0 a1 a2 b hsig hmiss
    unfold FileCache.call
    rw [slookup_supdate_ne _ _ _ _ _ hsig, hmiss]

/-- Witness for claim C5: a cold call at time 100 computes and stores;
the repeat call at time 200 (within the 21600-second TTL) is served from
the store without running the producer. -/
theorem file_cache_ttl_witness :
    FileCache.call ⟨"get_metadata", (fun n => Nat.repr n), (fun n : Nat => n + 1)⟩
        21600 [] 100 7
      = Except.ok (8, [("get_metadata:7", some 8, 100)], true) ∧
    FileCache.call ⟨"get_metadata", (fun n => Nat.repr n), (fun n : Nat => n + 1)⟩
        21600 [("get_metadata:7", some 8, 100)] 200 7
      = Except.ok (8, [("get_metadata:7", some 8, 100)], false) := by
  have h := (file_cache_ttl Nat Nat
    ⟨"get_metadata", (fun n => Nat.repr n), (fun n : Nat => n + 1)⟩ 21600).1
    [] 100 200 7 rfl (by norm_num)
  exact ⟨h.1, h.2⟩

/-- Counterexample to claim C7: a corrupt stored entry that is still
within the TTL makes the cache lookup raise `UnpicklingError` to the
caller instead of degrading to a recompute. -/
theorem corrupt_fresh_entry_raises :
    FileCache.call ⟨"get_metadata", (fun n => Nat.repr n), (fun n : Nat => n + 1)⟩
        21600 [("get_metadata:7", Option.none, 50)] 100 7
      = Except.error "UnpicklingError" := rfl

/-- Claim C7 amended: a corrupt entry whose age is within the TTL makes
the lookup raise the load error (the producer is not invoked); a corrupt
entry past the TTL is treated as a miss: the producer is invoked, the
entry rewritten, and the fresh value returned. -/
theorem corrupt_entry_behavior (α β : Type) (fc : FileCache α β) (ttl : Nat)
    (st : CacheDir β) (now t0 : Nat) (a : α)
    (h : slookup st (fc.sigOf a) = some (Option.none, t0)) :
    (t0 + ttl > now → fc.call ttl st now a = Except.error "UnpicklingError") ∧
    (t0 + ttl ≤ now → fc.call ttl st now a =
      Except.ok (fc.fnc a, supdate st (fc.sigOf a) (some (fc.fnc a)) now, true)) := by
  constructor
  · intro hfresh
    unfold FileCache.call
    rw [h]
    simp [hfresh]
  · intro hstale
    unfold FileCache.call
    rw [h]
    simp [show ¬(now < t0 + ttl) from not_lt.mpr hstale]

/-- Witness for the amended claim C7: the corrupt fresh entry raises, the
corrupt stale entry is recomputed. -/
theorem corrupt_entry_behavior_witness :
    FileCache.call ⟨"get_metadata", (fun n => Nat.repr n), (fun n : Nat => n + 1)⟩
        21600 [("get_metadata:7", Option.none, 50)] 30000 7
      = Except.ok (8, [("get_metadata:7", some 8, 30000)], true) := by
  have h := corrupt_entry_behavior Nat Nat
    ⟨"get_metadata", (fun n => Nat.repr n), (fun n : Nat => n + 1)⟩ 21600
    [("get_metadata:7", Option.none, 50)] 30000 50 7 rfl
  exact h.2 (by norm_num)
